import Mathlib

/-!
Verification of the remote builder orchestration subsystem of `absconda`
(`src/absconda/remote.py`), as a shallow embedding in Lean.

Conventions used throughout:
* Filesystem paths are modelled as plain strings, already `expanduser`-resolved.
* Python dictionaries appear as association lists whose keys are unique.
* Effects (subprocess execution, filesystem probes, the monotonic clock) are
  supplied as explicit parameters ("worlds"), so every function here is a pure
  function of its inputs, mirroring the order of operations of the source.
* Python exceptions are modelled by the `PyExc` type below together with
  `Except` / `Option` results.
-/

namespace Absconda

/-- Exceptions that can escape the functions under study.  `remoteError` and
`remoteConfigError` are the module's own classes (plain `Exception` subclasses);
`calledProcessError`, `fileNotFoundError` and `osError` model
`subprocess.CalledProcessError` and the `OSError` family.  `fileNotFoundError`
is a subclass of `OSError`; neither `remoteError` nor `remoteConfigError` is. -/
inductive PyExc where
  | remoteError (msg : String)
  | remoteConfigError (msg : String)
  | calledProcessError (returncode : Int)
  | fileNotFoundError (msg : String)
  | osError (msg : String)
  deriving DecidableEq

/-- The left-brace character, written via its code point. -/
def lbrace : Char := Char.ofNat 123

/-- The right-brace character, written via its code point. -/
def rbrace : Char := Char.ofNat 125

/-- The single-quote character, written via its code point. -/
def squoteChar : Char := Char.ofNat 39

/-- The single-quote character as a one-character string. -/
def squote : String := String.singleton squoteChar

/-- Characters `shlex.quote` leaves unquoted (Python `_find_unsafe`): ASCII
alphanumerics, underscore and the punctuation `@ % + = : , . - /` (slash last
here to keep the comment well formed). -/
def isShlexSafe (c : Char) : Bool :=
  c.isAlphanum || c = '_' || c = '@' || c = '%' || c = '+' || c = '=' || c = ':' ||
    c = ',' || c = '.' || c = '/' || c = '-'

/-- `str.replace` for a single-character pattern (the only use `shlex.quote`
makes of it): every occurrence of `c` is replaced by `r`. -/
def replaceChar (s : String) (c : Char) (r : String) : String :=
  String.mk (s.data.foldr (fun a acc => if a = c then r.data ++ acc else a :: acc) [])

/-- `shlex.quote`: return `''` for the empty string, the string itself when all
characters are safe, and otherwise the string wrapped in single quotes with
every embedded single quote rewritten to `'"'"'`. -/
def shlexQuote (s : String) : String :=
  if s = "" then squote ++ squote
  else if s.data.all isShlexSafe then s
  else squote ++ replaceChar s squoteChar (squote ++ "\"" ++ squote ++ "\"" ++ squote) ++ squote

/-- `RemoteBuilderDefinition` (remote.py lines 38-53).  `metadata` holds the
unrecognized top-level keys of the builder mapping; its values are modelled as
the strings they render to in f-string interpolation. -/
structure RemoteBuilderDefinition where
  name : String
  ssh_target : String
  workspace : String
  ssh_port : Int
  ssh_key : Option String
  ssh_options : List String
  start_command : Option (List String)
  stop_command : Option (List String)
  lock_file : String
  provision_command : Option (List String)
  health_command : Option (List String)
  metadata : List (String × String)
  deriving DecidableEq

/-- `ssh_target.split('@')[1] if '@' in ssh_target else ssh_target`:
the bare host extracted from a `user@host` target. -/
def bareHost (s : String) : String :=
  if s.contains '@' then ((s.splitOn "@").drop 1).headD "" else s

/-- `_remote_shell_command` (remote.py lines 600-627): build the argv vector
that executes `payload` in a login shell on the remote host, routing through
`gcloud compute ssh` when the metadata carries both a `project` and a `zone`
key, and through plain `ssh` otherwise. -/
def _remote_shell_command (defn : RemoteBuilderDefinition) (payload : String)
    (env_vars : Option (List (String × String))) : List String :=
  let payload :=
    match env_vars with
    | some evs =>
      if evs.isEmpty then payload
      else
        String.intercalate " "
            (evs.map fun kv => "export " ++ kv.1 ++ "=" ++ shlexQuote kv.2) ++
          " && " ++ payload
    | none => payload
  if (defn.metadata.lookup "project").isSome && (defn.metadata.lookup "zone").isSome then
    let host := bareHost defn.ssh_target
    ["gcloud", "compute", "ssh", host,
      "--zone=" ++ (defn.metadata.lookup "zone").getD "",
      "--project=" ++ (defn.metadata.lookup "project").getD "",
      "--tunnel-through-iap",
      "--command=bash -lc " ++ shlexQuote payload]
  else
    let command := ["ssh"] ++ defn.ssh_options
    let command := command ++ (match defn.ssh_key with | some k => ["-i", k] | none => [])
    let command := command ++ (if defn.ssh_port ≠ 22 then ["-p", toString defn.ssh_port] else [])
    command ++ [defn.ssh_target, "bash -lc " ++ shlexQuote payload]

/-- `_remote_scp_upload` (remote.py lines 630-652): build the argv vector that
transfers `source` to `remote_path` on the remote host, routing through
`gcloud compute scp` when the metadata carries both a `project` and a `zone`
key, and through plain `scp` otherwise. -/
def _remote_scp_upload (defn : RemoteBuilderDefinition) (source : String)
    (remote_path : String) : List String :=
  if (defn.metadata.lookup "project").isSome && (defn.metadata.lookup "zone").isSome then
    let host := bareHost defn.ssh_target
    ["gcloud", "compute", "scp", source,
      host ++ ":" ++ remote_path,
      "--zone=" ++ (defn.metadata.lookup "zone").getD "",
      "--project=" ++ (defn.metadata.lookup "project").getD "",
      "--tunnel-through-iap"]
  else
    let command := ["scp"] ++ defn.ssh_options
    let command := command ++ (match defn.ssh_key with | some k => ["-i", k] | none => [])
    let command := command ++ (if defn.ssh_port ≠ 22 then ["-P", toString defn.ssh_port] else [])
    command ++ [source, defn.ssh_target ++ ":" ++ remote_path]

/-- Addressing-mode selector: relay (cloud) mode iff the metadata mapping
contains both a `project` key and a `zone` key. -/
def relayMode (defn : RemoteBuilderDefinition) : Bool :=
  (defn.metadata.lookup "project").isSome && (defn.metadata.lookup "zone").isSome

/-- C5: for every definition, the remote-shell and file-transfer command
vectors are pure functions of the definition; when the metadata contains both a
`project` and a `zone` key both operations produce `gcloud` relay commands
addressing the bare host extracted from a `user@host` target, and when either
key is absent both produce plain `ssh`/`scp` commands addressing the full ssh
target.  Otherwise-identical definitions thus differ exactly in this way. -/
theorem C5_addressing_mode (d : RemoteBuilderDefinition) (payload source remotePath : String) :
    (relayMode d = true →
      _remote_shell_command d payload none =
        ["gcloud", "compute", "ssh", bareHost d.ssh_target,
          "--zone=" ++ (d.metadata.lookup "zone").getD "",
          "--project=" ++ (d.metadata.lookup "project").getD "",
          "--tunnel-through-iap",
          "--command=bash -lc " ++ shlexQuote payload] ∧
      _remote_scp_upload d source remotePath =
        ["gcloud", "compute", "scp", source,
          bareHost d.ssh_target ++ ":" ++ remotePath,
          "--zone=" ++ (d.metadata.lookup "zone").getD "",
          "--project=" ++ (d.metadata.lookup "project").getD "",
          "--tunnel-through-iap"]) ∧
    (relayMode d = false →
      _remote_shell_command d payload none =
        ["ssh"] ++ d.ssh_options ++
          (match d.ssh_key with | some k => ["-i", k] | none => []) ++
          (if d.ssh_port ≠ 22 then ["-p", toString d.ssh_port] else []) ++
          [d.ssh_target, "bash -lc " ++ shlexQuote payload] ∧
      _remote_scp_upload d source remotePath =
        ["scp"] ++ d.ssh_options ++
          (match d.ssh_key with | some k => ["-i", k] | none => []) ++
          (if d.ssh_port ≠ 22 then ["-P", toString d.ssh_port] else []) ++
          [source, d.ssh_target ++ ":" ++ remotePath]) := by
  unfold relayMode at *
  refine ⟨fun h => ⟨?_, ?_⟩, fun h => ⟨?_, ?_⟩⟩ <;>
    simp [_remote_shell_command, _remote_scp_upload, h]

/-- A concrete relay-mode builder definition (both `project` and `zone` keys). -/
def relayDefn : RemoteBuilderDefinition :=
  { name := "gcp", ssh_target := "user@host", workspace := "/srv/builds",
    ssh_port := 22, ssh_key := none, ssh_options := [],
    start_command := none, stop_command := none, lock_file := "/tmp/gcp.lock",
    provision_command := none, health_command := none,
    metadata := [("project", "p1"), ("zone", "z1")] }

/-- A concrete plain-SSH builder definition (no relay metadata). -/
def plainDefn : RemoteBuilderDefinition :=
  { name := "plain", ssh_target := "user@host", workspace := "/srv/builds",
    ssh_port := 22, ssh_key := none, ssh_options := [],
    start_command := none, stop_command := none, lock_file := "/tmp/plain.lock",
    provision_command := none, health_command := none,
    metadata := [] }

/-- Witness for C5 at one concrete definition per addressing mode. -/
theorem C5_addressing_mode_witness :
    _remote_shell_command relayDefn "echo hi" none =
      ["gcloud", "compute", "ssh", bareHost relayDefn.ssh_target,
        "--zone=" ++ (relayDefn.metadata.lookup "zone").getD "",
        "--project=" ++ (relayDefn.metadata.lookup "project").getD "",
        "--tunnel-through-iap",
        "--command=bash -lc " ++ shlexQuote "echo hi"] ∧
    _remote_scp_upload plainDefn "a.tar.gz" "/srv/b.tar.gz" =
      ["scp"] ++ plainDefn.ssh_options ++
        (match plainDefn.ssh_key with | some k => ["-i", k] | none => []) ++
        (if plainDefn.ssh_port ≠ 22 then ["-P", toString plainDefn.ssh_port] else []) ++
        ["a.tar.gz", plainDefn.ssh_target ++ ":" ++ "/srv/b.tar.gz"] :=
  ⟨((C5_addressing_mode relayDefn "echo hi" "a.tar.gz" "/srv/b.tar.gz").1 (by decide)).1,
   ((C5_addressing_mode plainDefn "echo hi" "a.tar.gz" "/srv/b.tar.gz").2 (by decide)).2⟩

/-! ## Remote lock (`_RemoteLock`, remote.py lines 442-488) -/

/-- Events observable during `_RemoteLock.__enter__`: an exclusive-create
attempt at a given monotonic time, the one-time contention notice, and each
2-second poll sleep. -/
inductive LockEvent where
  | attempt (t : Nat)
  | notice
  | sleepPoll
  deriving DecidableEq

/-- The timeout message (remote.py lines 470-480): the owner clause carries the
lock-file content read at timeout time, stripped; it is omitted when the read
fails with `OSError` (modelled by `none`) or the stripped content is empty. -/
def timeoutMessage (path : String) (ownerRead : Option String) : String :=
  let owner :=
    match ownerRead with
    | some content =>
      let existing := content.trim
      if existing = "" then "" else " Current owner: " ++ existing ++ "."
    | none => ""
  "Timed out waiting for remote builder lock at " ++ path ++ "." ++ owner

/-- The acquisition loop of `_RemoteLock.__enter__` (remote.py lines 450-481).

Each iteration attempts an exclusive create of the lock file; on contention it
prints the notice (first contention only), raises the timeout `RemoteError`
when the elapsed monotonic time has reached the wait budget, and otherwise
sleeps 2 seconds and retries.  The clock advances exactly by the 2-second
sleeps, so `elapsed` grows by 2 per iteration; the argument `b` carries the
remaining budget `wait - elapsed`, so the source's `elapsed >= wait` test is
`b = 0` and `b` decreases by 2 per iteration (structurally, keeping the
definition computable).  `fileExistsAt t` says whether a lock file held by
another process exists at time `t`; `ownerAt t` is its content at time `t`
(`none` meaning unreadable).  `Except.ok t` means the lock file was created
(acquired) at time `t`. -/
def lockLoop (fileExistsAt : Nat → Bool) (ownerAt : Nat → Option String)
    (path : String) : Nat → Nat → Bool → List LockEvent × Except PyExc Nat
  | 0, elapsed, noticed =>
    if fileExistsAt elapsed = false then
      ([LockEvent.attempt elapsed], Except.ok elapsed)
    else
      (LockEvent.attempt elapsed :: (if noticed then [] else [LockEvent.notice]),
        Except.error (PyExc.remoteError (timeoutMessage path (ownerAt elapsed))))
  | 1, elapsed, noticed =>
    if fileExistsAt elapsed = false then
      ([LockEvent.attempt elapsed], Except.ok elapsed)
    else
      let r := lockLoop fileExistsAt ownerAt path 0 (elapsed + 2) true
      (LockEvent.attempt elapsed :: (if noticed then [] else [LockEvent.notice]) ++
        LockEvent.sleepPoll :: r.1, r.2)
  | (b' + 2), elapsed, noticed =>
    if fileExistsAt elapsed = false then
      ([LockEvent.attempt elapsed], Except.ok elapsed)
    else
      let r := lockLoop fileExistsAt ownerAt path b' (elapsed + 2) true
      (LockEvent.attempt elapsed :: (if noticed then [] else [LockEvent.notice]) ++
        LockEvent.sleepPoll :: r.1, r.2)

/-- `_RemoteLock.__enter__` with wait budget `wait`: poll from time 0 with the
notice not yet printed. -/
def lockAcquire (fileExistsAt : Nat → Bool) (ownerAt : Nat → Option String)
    (wait : Nat) (path : String) : List LockEvent × Except PyExc Nat :=
  lockLoop fileExistsAt ownerAt path wait 0 false

/-- Possible outcomes of the `Path.unlink()` call on the lock file. -/
inductive UnlinkOutcome where
  | ok
  | notFound
  | osErr (msg : String)
  deriving DecidableEq

/-- The `_acquired` flag of the lock context after `__enter__`. -/
def acquiredFlag (r : Except PyExc Nat) : Bool :=
  match r with
  | Except.ok _ => true
  | Except.error _ => false

/-- `_RemoteLock.__exit__` (remote.py lines 483-488): when the lock was
acquired by this context, unlink the lock file, swallowing only
`FileNotFoundError`; when it was never acquired, do nothing.  The first
component records whether an unlink was attempted, the second the escaping
exception, if any. -/
def lockExit (acquired : Bool) (unlink : UnlinkOutcome) : Bool × Option PyExc :=
  if acquired then
    match unlink with
    | UnlinkOutcome.ok => (true, none)
    | UnlinkOutcome.notFound => (true, none)
    | UnlinkOutcome.osErr m => (true, some (PyExc.osError m))
  else (false, none)

/-- The times of the exclusive-create attempts in a lock event trace. -/
def attemptTimes (evs : List LockEvent) : List Nat :=
  evs.filterMap fun e => match e with | LockEvent.attempt t => some t | _ => none

theorem lockLoop_busy_result (oa : Nat → Option String) (path : String) :
    ∀ b elapsed noticed,
      (lockLoop (fun _ => true) oa path b elapsed noticed).2 =
        Except.error (PyExc.remoteError (timeoutMessage path (oa (elapsed + 2 * ((b + 1) / 2)))))
  | 0, e, n => by simp [lockLoop]
  | 1, e, n => by simp [lockLoop]
  | (b + 2), e, n => by
      have ih := lockLoop_busy_result oa path b (e + 2) true
      have harg : e + 2 + 2 * ((b + 1) / 2) = e + 2 * ((b + 2 + 1) / 2) := by omega
      simp [lockLoop, ih, harg]

theorem lockLoop_busy_attempts (oa : Nat → Option String) (path : String) :
    ∀ b elapsed noticed,
      attemptTimes (lockLoop (fun _ => true) oa path b elapsed noticed).1 =
        List.range' elapsed ((b + 1) / 2 + 1) 2
  | 0, e, n => by cases n <;> simp [lockLoop, attemptTimes]
  | 1, e, n => by cases n <;> simp [lockLoop, attemptTimes, List.range']
  | (b + 2), e, n => by
      have ih := lockLoop_busy_attempts oa path b (e + 2) true
      have hdiv : (b + 2 + 1) / 2 + 1 = ((b + 1) / 2 + 1) + 1 := by omega
      cases n <;>
        simp only [lockLoop, attemptTimes, List.filterMap_append, List.filterMap_cons] at ih ⊢ <;>
        simp [hdiv, List.range'_succ] <;>
        simpa [attemptTimes] using ih

theorem lockLoop_notice_count_noticed (oa : Nat → Option String) (path : String) :
    ∀ b elapsed,
      ((lockLoop (fun _ => true) oa path b elapsed true).1.count LockEvent.notice) = 0
  | 0, e => by simp [lockLoop]
  | 1, e => by simp [lockLoop]
  | (b + 2), e => by
      have ih := lockLoop_notice_count_noticed oa path b (e + 2)
      simp [lockLoop, List.count_cons, List.count_append] at ih ⊢
      simpa using ih

theorem lockLoop_notice_count_first (oa : Nat → Option String) (path : String) :
    ∀ b elapsed,
      ((lockLoop (fun _ => true) oa path b elapsed false).1.count LockEvent.notice) = 1
  | 0, e => by simp [lockLoop]
  | 1, e => by simp [lockLoop]
  | (b + 2), e => by
      have ih := lockLoop_notice_count_noticed oa path b (e + 2)
      simp [lockLoop, List.count_cons, List.count_append] at ih ⊢
      simpa using ih

/-- C2: with the lock file held by another process throughout and a positive
wait budget, acquisition makes an immediate first attempt at time 0, retries on
a fixed 2-second interval, emits the contention notice exactly once, never
succeeds, and fails with a timeout `RemoteError` whose message embeds the
owner token read from the lock file at timeout time (omitted when the file is
unreadable or its stripped content empty, per `timeoutMessage`). -/
theorem C2_lock_contention (ownerAt : Nat → Option String) (wait : Nat) (path : String)
    (hpos : 0 < wait) :
    (lockAcquire (fun _ => true) ownerAt wait path).1.head? =
        some (LockEvent.attempt 0) ∧
    attemptTimes (lockAcquire (fun _ => true) ownerAt wait path).1 =
        List.range' 0 ((wait + 1) / 2 + 1) 2 ∧
    (lockAcquire (fun _ => true) ownerAt wait path).1.count LockEvent.notice = 1 ∧
    (lockAcquire (fun _ => true) ownerAt wait path).2 =
        Except.error (PyExc.remoteError
          (timeoutMessage path (ownerAt (2 * ((wait + 1) / 2))))) := by
  refine ⟨?_, ?_, ?_, ?_⟩
  · unfold lockAcquire
    rcases hb : wait with _ | _ | b <;> simp [lockLoop]
  · have h := lockLoop_busy_attempts ownerAt path wait 0 false
    simpa [lockAcquire] using h
  · exact lockLoop_notice_count_first ownerAt path wait 0
  · have h := lockLoop_busy_result ownerAt path wait 0 false
    simpa [lockAcquire] using h

/-- Witness for C2 at `wait = 3` with a concrete readable owner token. -/
theorem C2_lock_contention_witness :
    (lockAcquire (fun _ => true) (fun _ => some " host:42:7 ") 3 "/tmp/b.lock").1.head? =
        some (LockEvent.attempt 0) ∧
    attemptTimes (lockAcquire (fun _ => true) (fun _ => some " host:42:7 ") 3 "/tmp/b.lock").1 =
        List.range' 0 ((3 + 1) / 2 + 1) 2 ∧
    (lockAcquire (fun _ => true) (fun _ => some " host:42:7 ") 3 "/tmp/b.lock").1.count
        LockEvent.notice = 1 ∧
    (lockAcquire (fun _ => true) (fun _ => some " host:42:7 ") 3 "/tmp/b.lock").2 =
        Except.error (PyExc.remoteError
          (timeoutMessage "/tmp/b.lock" ((fun _ => some " host:42:7 ") (2 * ((3 + 1) / 2))))) :=
  C2_lock_contention (fun _ => some " host:42:7 ") 3 "/tmp/b.lock" (by decide)

/-- C9: a lock context whose acquisition failed (for example, timed out while
another holder's file existed) performs no unlink on exit: the release path
deletes the lock file only when this process itself created it. -/
theorem C9_no_unlink_without_acquisition (fe : Nat → Bool) (oa : Nat → Option String)
    (wait : Nat) (path : String) (u : UnlinkOutcome) (ex : PyExc)
    (hfail : (lockAcquire fe oa wait path).2 = Except.error ex) :
    lockExit (acquiredFlag (lockAcquire fe oa wait path).2) u = (false, none) := by
  rw [hfail]; rfl

/-- Witness for C9: a timed-out acquisition (busy lock, wait budget 1) followed
by exit does not unlink. -/
theorem C9_no_unlink_without_acquisition_witness :
    lockExit (acquiredFlag
        (lockAcquire (fun _ => true) (fun _ => none) 1 "/tmp/l.lock").2)
      UnlinkOutcome.ok = (false, none) :=
  C9_no_unlink_without_acquisition (fun _ => true) (fun _ => none) 1 "/tmp/l.lock"
    UnlinkOutcome.ok
    (PyExc.remoteError (timeoutMessage "/tmp/l.lock" none)) (by rfl)

/-- C7 counterexample: after a successful acquisition, a release whose unlink
fails with an `OSError` other than file-absence (for example a permission
error) raises — `__exit__` swallows only `FileNotFoundError`, so the claim
that release never raises for any filesystem reason is false. -/
theorem C7_counterexample :
    lockExit true (UnlinkOutcome.osErr "Permission denied") =
      (true, some (PyExc.osError "Permission denied")) := rfl

/-- C7 (amended): releasing after a successful acquisition attempts the unlink
and never raises when the unlink succeeds or the file is already absent
(removed manually by an operator); an unlink failing with any other
filesystem error propagates. -/
theorem C7_release_tolerates_absence :
    lockExit true UnlinkOutcome.ok = (true, none) ∧
    lockExit true UnlinkOutcome.notFound = (true, none) ∧
    ∀ m, lockExit true (UnlinkOutcome.osErr m) = (true, some (PyExc.osError m)) :=
  ⟨rfl, rfl, fun _ => rfl⟩

/-! ## Environment-variable interpolation (`_expand_env_vars`, remote.py lines 282-305) -/

/-- First character of a variable name in the interpolation pattern: `[A-Za-z_]`. -/
def isNameStart (c : Char) : Bool := c.isAlpha || c = '_'

/-- Subsequent characters of a variable name: `[A-Za-z0-9_]`. -/
def isNameChar (c : Char) : Bool := c.isAlphanum || c = '_'

/-- Try to match the tail of the regex `\$\x7b([A-Za-z_][A-Za-z0-9_]*)(\?)?\x7d`
right after a `$` has been consumed: on success return the variable name,
whether the `?` marker was present, and the remaining characters.  Regex
backtracking cannot produce further matches here, because the name run is
maximal and any shorter run would have to be followed by a name character,
which is neither `?` nor the closing brace. -/
def matchVar : List Char → Option (String × Bool × List Char)
  | c0 :: c :: cs =>
    if c0 = lbrace ∧ isNameStart c then
      let nameTail := cs.takeWhile isNameChar
      let name := String.mk (c :: nameTail)
      match cs.dropWhile isNameChar with
      | d :: rest =>
        if d = rbrace then some (name, false, rest)
        else if d = '?' then
          match rest with
          | d2 :: rest2 => if d2 = rbrace then some (name, true, rest2) else none
          | [] => none
        else none
      | [] => none
    else none
  | _ => none

theorem length_dropWhile_le (p : Char → Bool) :
    ∀ l : List Char, (l.dropWhile p).length ≤ l.length
  | [] => Nat.le_refl _
  | a :: l => by
    simp only [List.dropWhile_cons]
    split
    · exact Nat.le_trans (length_dropWhile_le p l) (by simp)
    · exact Nat.le_refl _

theorem matchVar_rest_length (l : List Char) (name : String) (req : Bool) (rest : List Char)
    (h : matchVar l = some (name, req, rest)) : rest.length < l.length := by
  match l with
  | [] => simp [matchVar] at h
  | [c0] => simp [matchVar] at h
  | c0 :: c :: cs =>
    have hdw := length_dropWhile_le isNameChar cs
    simp only [matchVar] at h
    split at h
    case isFalse => simp at h
    case isTrue =>
      have hqr : ¬('?' = rbrace) := by decide
      rcases hdrop : cs.dropWhile isNameChar with - | ⟨d, rest'⟩ <;> rw [hdrop] at h hdw
      · simp at h
      · by_cases h1 : d = rbrace
        · simp only [h1, if_pos, Option.some.injEq, Prod.mk.injEq] at h
          obtain ⟨-, -, hr⟩ := h
          subst hr
          simp only [List.length_cons] at hdw ⊢
          omega
        · by_cases h2 : d = '?'
          · rcases rest' with - | ⟨d2, rest2⟩
            · simp [h1, h2, hqr] at h
            · by_cases h3 : d2 = rbrace
              · simp only [h1, h2, h3, hqr, if_neg, if_pos, if_true, if_false,
                  ite_true, ite_false, Option.some.injEq, Prod.mk.injEq] at h
                obtain ⟨-, -, hr⟩ := h
                subst hr
                simp only [List.length_cons] at hdw ⊢
                omega
              · simp [h1, h2, h3, hqr] at h
          · simp [h1, h2] at h

/-- The left-to-right scan of `re.sub` with the replacer of `_expand_env_vars`
(remote.py lines 287-299): at each position, a match of the variable pattern is
replaced — by the variable's value when it is set, by the matched text itself
when it is unset and optional — while an unset required variable raises
`RemoteConfigError`; non-matching characters are copied, and after a `$` that
starts no match, scanning resumes at the following character. -/
def expandChars (env : String → Option String) : List Char → Except PyExc (List Char)
  | [] => Except.ok []
  | c :: rest =>
    if c = '$' then
      match hm : matchVar rest with
      | some (name, required, rest2) =>
        match env name with
        | some v => do
          let r ← expandChars env rest2
          Except.ok (v.data ++ r)
        | none =>
          if required then
            Except.error (PyExc.remoteConfigError
              ("Required environment variable " ++ squote ++ name ++ squote ++ " is not set"))
          else do
            let r ← expandChars env rest2
            Except.ok ('$' :: lbrace :: name.data ++ rbrace :: r)
      | none => do
        let r ← expandChars env rest
        Except.ok (c :: r)
    else do
      let r ← expandChars env rest
      Except.ok (c :: r)
  termination_by l => l.length
  decreasing_by
    all_goals simp only [List.length_cons]
    all_goals first
      | omega
      | (rename_i hm
         have := matchVar_rest_length _ _ _ _ hm
         omega)

/-- `_expand_env_vars` on one string value: scan and rebuild the string. -/
def expandStr (env : String → Option String) (s : String) : Except PyExc String := do
  let r ← expandChars env s.data
  Except.ok (String.mk r)

/-- Configuration values as produced by `yaml.safe_load`. -/
inductive ConfigValue where
  | str (s : String)
  | int (n : Int)
  | bool (b : Bool)
  | null
  | list (xs : List ConfigValue)
  | dict (kvs : List (String × ConfigValue))

mutual

/-- `_expand_env_vars` (remote.py lines 282-305): recursively expand
environment variables in strings, in every element of a list and in every
value of a dict (keys are left untouched); other scalars pass through. -/
def _expand_env_vars (env : String → Option String) : ConfigValue → Except PyExc ConfigValue
  | ConfigValue.str s => do
    let r ← expandStr env s
    Except.ok (ConfigValue.str r)
  | ConfigValue.list xs => do
    let r ← expandValsList env xs
    Except.ok (ConfigValue.list r)
  | ConfigValue.dict kvs => do
    let r ← expandValsDict env kvs
    Except.ok (ConfigValue.dict r)
  | ConfigValue.int n => Except.ok (ConfigValue.int n)
  | ConfigValue.bool b => Except.ok (ConfigValue.bool b)
  | ConfigValue.null => Except.ok ConfigValue.null

/-- Elementwise expansion of a list value (the list comprehension in the
source; the first error propagates). -/
def expandValsList (env : String → Option String) :
    List ConfigValue → Except PyExc (List ConfigValue)
  | [] => Except.ok []
  | x :: xs => do
    let x' ← _expand_env_vars env x
    let xs' ← expandValsList env xs
    Except.ok (x' :: xs')

/-- Valuewise expansion of a dict value (the dict comprehension in the source;
keys are preserved verbatim, the first error propagates). -/
def expandValsDict (env : String → Option String) :
    List (String × ConfigValue) → Except PyExc (List (String × ConfigValue))
  | [] => Except.ok []
  | (k, v) :: kvs => do
    let v' ← _expand_env_vars env v
    let kvs' ← expandValsDict env kvs
    Except.ok ((k, v') :: kvs')

end

/-- The literal text `$\x7bNAME\x7d`. -/
def plainRef (name : String) : String :=
  "$" ++ String.singleton lbrace ++ name ++ String.singleton rbrace

/-- The literal text `$\x7bNAME?\x7d`. -/
def requiredRef (name : String) : String :=
  "$" ++ String.singleton lbrace ++ name ++ "?" ++ String.singleton rbrace

/-- The configuration error raised for an unset required variable. -/
def requiredUnsetError (name : String) : PyExc :=
  PyExc.remoteConfigError
    ("Required environment variable " ++ squote ++ name ++ squote ++ " is not set")

/-- Nest a value `n` levels deep inside alternating mappings and lists. -/
def wrapN : Nat → ConfigValue → ConfigValue
  | 0, v => v
  | n + 1, v => ConfigValue.dict [("outer", ConfigValue.list [wrapN n v])]

theorem takeWhile_append_all {p : Char → Bool} :
    ∀ l₁ l₂ : List Char, (∀ a ∈ l₁, p a = true) →
      (l₁ ++ l₂).takeWhile p = l₁ ++ l₂.takeWhile p
  | [], l₂, _ => rfl
  | a :: l₁, l₂, h => by
    have ha := h a (by simp)
    have ih := takeWhile_append_all l₁ l₂ (fun b hb => h b (by simp [hb]))
    simp [List.takeWhile_cons, ha, ih]

theorem dropWhile_append_all {p : Char → Bool} :
    ∀ l₁ l₂ : List Char, (∀ a ∈ l₁, p a = true) →
      (l₁ ++ l₂).dropWhile p = l₂.dropWhile p
  | [], l₂, _ => rfl
  | a :: l₁, l₂, h => by
    have ha := h a (by simp)
    have ih := dropWhile_append_all l₁ l₂ (fun b hb => h b (by simp [hb]))
    simp [List.dropWhile_cons, ha, ih]

theorem matchVar_plain (c : Char) (tail rest : List Char)
    (hc : isNameStart c = true) (ht : ∀ a ∈ tail, isNameChar a = true) :
    matchVar (lbrace :: c :: (tail ++ rbrace :: rest)) =
      some (String.mk (c :: tail), false, rest) := by
  have hrb : isNameChar rbrace = false := by decide
  have h1 : (tail ++ rbrace :: rest).takeWhile isNameChar = tail := by
    rw [takeWhile_append_all tail _ ht]
    simp [List.takeWhile_cons, hrb]
  have h2 : (tail ++ rbrace :: rest).dropWhile isNameChar = rbrace :: rest := by
    rw [dropWhile_append_all tail _ ht]
    simp [List.dropWhile_cons, hrb]
  simp [matchVar, hc, h1, h2]

theorem matchVar_required (c : Char) (tail rest : List Char)
    (hc : isNameStart c = true) (ht : ∀ a ∈ tail, isNameChar a = true) :
    matchVar (lbrace :: c :: (tail ++ '?' :: rbrace :: rest)) =
      some (String.mk (c :: tail), true, rest) := by
  have hq : isNameChar '?' = false := by decide
  have h1 : (tail ++ '?' :: rbrace :: rest).takeWhile isNameChar = tail := by
    rw [takeWhile_append_all tail _ ht]
    simp [List.takeWhile_cons, hq]
  have h2 : (tail ++ '?' :: rbrace :: rest).dropWhile isNameChar = '?' :: rbrace :: rest := by
    rw [dropWhile_append_all tail _ ht]
    simp [List.dropWhile_cons, hq]
  simp [matchVar, hc, h1, h2, show ¬('?' = rbrace) from by decide]

theorem expandChars_nil (env : String → Option String) : expandChars env [] = Except.ok [] := by
  unfold expandChars
  rfl

/-- Scanning a `$\x7bNAME\x7d` occurrence whose variable is unset keeps the
matched text verbatim and continues with the suffix. -/
theorem expandChars_plain_unset (env : String → Option String) (c : Char)
    (tail rest r' : List Char)
    (hc : isNameStart c = true) (ht : ∀ a ∈ tail, isNameChar a = true)
    (hunset : env (String.mk (c :: tail)) = none)
    (hres : expandChars env rest = Except.ok r') :
    expandChars env ('$' :: lbrace :: c :: (tail ++ rbrace :: rest)) =
      Except.ok ('$' :: lbrace :: c :: (tail ++ rbrace :: r')) := by
  have hm := matchVar_plain c tail rest hc ht
  unfold expandChars
  rw [if_pos rfl]
  split
  case h_1 name required rest2 heq =>
    rw [hm] at heq
    simp only [Option.some.injEq, Prod.mk.injEq] at heq
    obtain ⟨h1, h2, h3⟩ := heq
    subst h1; subst h2; subst h3
    simp only [hunset, hres]
    rfl
  case h_2 heq =>
    rw [hm] at heq
    exact absurd heq (by simp)

/-- Scanning a `$\x7bNAME?\x7d` occurrence whose variable is unset raises the
configuration error naming the variable. -/
theorem expandChars_required_unset (env : String → Option String) (c : Char)
    (tail rest : List Char)
    (hc : isNameStart c = true) (ht : ∀ a ∈ tail, isNameChar a = true)
    (hunset : env (String.mk (c :: tail)) = none) :
    expandChars env ('$' :: lbrace :: c :: (tail ++ '?' :: rbrace :: rest)) =
      Except.error (requiredUnsetError (String.mk (c :: tail))) := by
  have hm := matchVar_required c tail rest hc ht
  unfold expandChars
  rw [if_pos rfl]
  split
  case h_1 name required rest2 heq =>
    rw [hm] at heq
    simp only [Option.some.injEq, Prod.mk.injEq] at heq
    obtain ⟨h1, h2, h3⟩ := heq
    subst h1; subst h2; subst h3
    simp [hunset, requiredUnsetError]
  case h_2 heq =>
    rw [hm] at heq
    exact absurd heq (by simp)

theorem plainRef_data (name : String) :
    (plainRef name).data = '$' :: lbrace :: (name.data ++ [rbrace]) := by
  simp [plainRef, String.singleton]

theorem requiredRef_data (name : String) :
    (requiredRef name).data = '$' :: lbrace :: (name.data ++ '?' :: [rbrace]) := by
  simp [requiredRef, String.singleton]

theorem expandStr_plain_unset (env : String → Option String) (c : Char) (tail : List Char)
    (hc : isNameStart c = true) (ht : ∀ a ∈ tail, isNameChar a = true)
    (hunset : env (String.mk (c :: tail)) = none) :
    expandStr env (plainRef (String.mk (c :: tail))) =
      Except.ok (plainRef (String.mk (c :: tail))) := by
  have h := expandChars_plain_unset env c tail [] [] hc ht hunset (expandChars_nil env)
  unfold expandStr
  rw [plainRef_data]
  rw [show ('$' :: lbrace :: ((String.mk (c :: tail)).data ++ [rbrace])) =
      ('$' :: lbrace :: c :: (tail ++ rbrace :: [])) from by simp, h]
  rfl

theorem expandStr_required_unset (env : String → Option String) (c : Char) (tail : List Char)
    (hc : isNameStart c = true) (ht : ∀ a ∈ tail, isNameChar a = true)
    (hunset : env (String.mk (c :: tail)) = none) :
    expandStr env (requiredRef (String.mk (c :: tail))) =
      Except.error (requiredUnsetError (String.mk (c :: tail))) := by
  have h := expandChars_required_unset env c tail [] hc ht hunset
  unfold expandStr
  rw [requiredRef_data]
  rw [show ('$' :: lbrace :: ((String.mk (c :: tail)).data ++ '?' :: [rbrace])) =
      ('$' :: lbrace :: c :: (tail ++ '?' :: rbrace :: [])) from by simp, h]
  rfl

theorem expand_wrapN_ok (env : String → Option String) (v v' : ConfigValue)
    (hv : _expand_env_vars env v = Except.ok v') :
    ∀ n, _expand_env_vars env (wrapN n v) = Except.ok (wrapN n v')
  | 0 => hv
  | n + 1 => by
    have ih := expand_wrapN_ok env v v' hv n
    simp only [wrapN, _expand_env_vars, expandValsDict, expandValsList, ih]
    rfl

theorem expand_wrapN_error (env : String → Option String) (v : ConfigValue) (e : PyExc)
    (hv : _expand_env_vars env v = Except.error e) :
    ∀ n, _expand_env_vars env (wrapN n v) = Except.error e
  | 0 => hv
  | n + 1 => by
    have ih := expand_wrapN_error env v e hv n
    simp only [wrapN, _expand_env_vars, expandValsDict, expandValsList, ih]
    rfl

/-- C6: with `FOO` unset in the environment, a string configuration value
`$\x7bFOO\x7d` is left as the literal text, `$\x7bFOO?\x7d` raises a
configuration error naming `FOO`, and the interpolation applies recursively at
any nesting depth inside lists and mappings of the loaded configuration
(`wrapN` alternates mappings and lists around the value). -/
theorem C6_env_interpolation (env : String → Option String) (c : Char) (tail : List Char)
    (hc : isNameStart c = true) (ht : ∀ a ∈ tail, isNameChar a = true)
    (hunset : env (String.mk (c :: tail)) = none) :
    _expand_env_vars env (ConfigValue.str (plainRef (String.mk (c :: tail)))) =
      Except.ok (ConfigValue.str (plainRef (String.mk (c :: tail)))) ∧
    _expand_env_vars env (ConfigValue.str (requiredRef (String.mk (c :: tail)))) =
      Except.error (requiredUnsetError (String.mk (c :: tail))) ∧
    (∀ n, _expand_env_vars env
        (wrapN n (ConfigValue.str (plainRef (String.mk (c :: tail))))) =
      Except.ok (wrapN n (ConfigValue.str (plainRef (String.mk (c :: tail)))))) ∧
    (∀ n, _expand_env_vars env
        (wrapN n (ConfigValue.str (requiredRef (String.mk (c :: tail))))) =
      Except.error (requiredUnsetError (String.mk (c :: tail)))) := by
  have h1 : _expand_env_vars env (ConfigValue.str (plainRef (String.mk (c :: tail)))) =
      Except.ok (ConfigValue.str (plainRef (String.mk (c :: tail)))) := by
    simp only [_expand_env_vars, expandStr_plain_unset env c tail hc ht hunset]
    rfl
  have h2 : _expand_env_vars env (ConfigValue.str (requiredRef (String.mk (c :: tail)))) =
      Except.error (requiredUnsetError (String.mk (c :: tail))) := by
    simp only [_expand_env_vars, expandStr_required_unset env c tail hc ht hunset]
    rfl
  exact ⟨h1, h2, expand_wrapN_ok env _ _ h1, expand_wrapN_error env _ _ h2⟩

/-- Witness for C6 at the concrete variable name `FOO` with an empty
environment. -/
theorem C6_env_interpolation_witness :
    _expand_env_vars (fun _ => none) (ConfigValue.str (plainRef (String.mk ('F' :: ['O', 'O'])))) =
      Except.ok (ConfigValue.str (plainRef (String.mk ('F' :: ['O', 'O'])))) ∧
    _expand_env_vars (fun _ => none) (ConfigValue.str (requiredRef (String.mk ('F' :: ['O', 'O'])))) =
      Except.error (requiredUnsetError (String.mk ('F' :: ['O', 'O']))) ∧
    (∀ n, _expand_env_vars (fun _ => none)
        (wrapN n (ConfigValue.str (plainRef (String.mk ('F' :: ['O', 'O']))))) =
      Except.ok (wrapN n (ConfigValue.str (plainRef (String.mk ('F' :: ['O', 'O'])))))) ∧
    (∀ n, _expand_env_vars (fun _ => none)
        (wrapN n (ConfigValue.str (requiredRef (String.mk ('F' :: ['O', 'O']))))) =
      Except.error (requiredUnsetError (String.mk ('F' :: ['O', 'O'])))) :=
  C6_env_interpolation (fun _ => none) 'F' ['O', 'O'] (by decide)
    (by decide) rfl

/-! ## Context packaging (`_create_context_tarball`, remote.py lines 671-697) -/

/-- JSON values as passed in the build manifest.  Numbers are modelled as
integers (the manifests carry strings, booleans and integral timestamps;
floating point is out of scope). -/
inductive JValue where
  | null
  | bool (b : Bool)
  | num (n : Int)
  | str (s : String)
  | arr (xs : List JValue)
  | obj (kvs : List (String × JValue))

/-- Lower-case hexadecimal digit. -/
def hexDigit (n : Nat) : Char :=
  if n < 10 then Char.ofNat (48 + n) else Char.ofNat (87 + n)

/-- Four-digit lower-case hexadecimal rendering, as in `\uXXXX` escapes. -/
def hex4 (n : Nat) : String :=
  String.mk [hexDigit (n / 4096 % 16), hexDigit (n / 256 % 16),
    hexDigit (n / 16 % 16), hexDigit (n % 16)]

/-- `json.dumps` escaping of one character with the default
`ensure_ascii=True`: short escapes for the usual control characters, quote and
backslash; `\uXXXX` (with surrogate pairs above the BMP) for every other
character outside the printable ASCII range `0x20`..`0x7e`. -/
def jsonEscapeChar (c : Char) : String :=
  if c = '"' then "\\\""
  else if c = '\\' then "\\\\"
  else if c = '\n' then "\\n"
  else if c = '\r' then "\\r"
  else if c = '\t' then "\\t"
  else if c = Char.ofNat 8 then "\\b"
  else if c = Char.ofNat 12 then "\\f"
  else if c.toNat < 32 ∨ c.toNat > 126 then
    if c.toNat < 65536 then "\\u" ++ hex4 c.toNat
    else
      let v := c.toNat - 65536
      "\\u" ++ hex4 (55296 + v / 1024) ++ "\\u" ++ hex4 (56320 + v % 1024)
  else String.singleton c

/-- A JSON string literal: escaped content between double quotes. -/
def jsonQuote (s : String) : String :=
  "\"" ++ String.join (s.data.map jsonEscapeChar) ++ "\""

/-- `indent=2`: the indentation prefix at nesting level `lvl`. -/
def indentSp (lvl : Nat) : String := String.mk (List.replicate (2 * lvl) ' ')

/-- Order on rendered dict items: by key (`sort_keys=True`; dict keys are
unique, so comparing keys alone reproduces Python's `sorted(dct.items())`). -/
def keyLeS (a b : String × String) : Prop := a.1 ≤ b.1

instance : DecidableRel keyLeS := fun a b => inferInstanceAs (Decidable (a.1 ≤ b.1))

instance : IsTotal (String × String) keyLeS := ⟨fun a b => le_total a.1 b.1⟩

instance : IsTrans (String × String) keyLeS := ⟨fun _ _ _ h1 h2 => le_trans h1 h2⟩

mutual

/-- `json.dumps(v, indent=2, sort_keys=True)` at nesting level `lvl`.  With an
indent, Python separates items by `,`+newline and keys by `: `, collapses
empty containers, and serializes each dict's items in sorted key order.  (The
model serializes the values first and then sorts the rendered `(key, text)`
pairs by key; since an item's rendering does not depend on its position, this
yields the same text as sorting the items first, as the source's encoder
does.) -/
def dumpsAt : Nat → JValue → String
  | _, JValue.null => "null"
  | _, JValue.bool true => "true"
  | _, JValue.bool false => "false"
  | _, JValue.num n => toString n
  | _, JValue.str s => jsonQuote s
  | _, JValue.arr [] => "[]"
  | lvl, JValue.arr (x :: xs) =>
    "[\n" ++
      String.intercalate ",\n"
        ((dumpsArr (lvl + 1) (x :: xs)).map (fun t => indentSp (lvl + 1) ++ t)) ++
      "\n" ++ indentSp lvl ++ "]"
  | _, JValue.obj [] => "\x7b\x7d"
  | lvl, JValue.obj (kv :: kvs) =>
    "\x7b\n" ++
      String.intercalate ",\n"
        ((List.insertionSort keyLeS (dumpsObj (lvl + 1) (kv :: kvs))).map
          (fun it => indentSp (lvl + 1) ++ jsonQuote it.1 ++ ": " ++ it.2)) ++
      "\n" ++ indentSp lvl ++ "\x7d"

/-- Render each array element. -/
def dumpsArr : Nat → List JValue → List String
  | _, [] => []
  | lvl, x :: xs => dumpsAt lvl x :: dumpsArr lvl xs

/-- Render each dict item to a `(key, text)` pair. -/
def dumpsObj : Nat → List (String × JValue) → List (String × String)
  | _, [] => []
  | lvl, (k, v) :: kvs => (k, dumpsAt lvl v) :: dumpsObj lvl kvs

end

/-- `json.dumps(manifest, indent=2, sort_keys=True)` for a manifest mapping. -/
def jsonDumpsManifest (kvs : List (String × JValue)) : String :=
  dumpsAt 0 (JValue.obj kvs)

/-- One member of the archive: entry name, byte content (as a UTF-8 string)
and modification time. -/
structure TarEntry where
  name : String
  data : String
  mtime : Nat
  deriving DecidableEq

/-- `_create_context_tarball` (remote.py lines 671-689), at the level of the
archive's member list.  `contextEntries` stands for the members produced by
`archive.add(str(context_dir), arcname=".")` — the entire contents of the
opaque context directory placed at the archive root; the function then appends
a `Dockerfile` member holding exactly the Dockerfile text and an
`absconda-manifest.json` member holding the indented, key-sorted JSON
serialization of the manifest, both stamped with the current time `now`
(`_tar_add_bytes`, lines 692-697).  The gzip temporary file's path is
`tarPath`.  A missing context directory raises `RemoteError` first. -/
def _create_context_tarball (contextExists : Bool) (contextDir : String)
    (contextEntries : List TarEntry) (dockerfile : String)
    (manifest : List (String × JValue)) (now : Nat) (tarPath : String) :
    Except PyExc (String × List TarEntry) :=
  if contextExists = false then
    Except.error (PyExc.remoteError ("Context directory '" ++ contextDir ++ "' does not exist."))
  else
    Except.ok (tarPath,
      contextEntries ++
        [⟨"Dockerfile", dockerfile, now⟩,
         ⟨"absconda-manifest.json", jsonDumpsManifest manifest, now⟩])

theorem dumpsObj_map_fst (lvl : Nat) :
    ∀ kvs : List (String × JValue), (dumpsObj lvl kvs).map Prod.fst = kvs.map Prod.fst
  | [] => rfl
  | (k, v) :: kvs => by
    simp only [dumpsObj, List.map_cons]
    rw [dumpsObj_map_fst lvl kvs]

theorem dumpsObj_perm (lvl : Nat) (m₁ m₂ : List (String × JValue)) (hp : m₁.Perm m₂) :
    (dumpsObj lvl m₁).Perm (dumpsObj lvl m₂) := by
  have h₁ : ∀ kvs, dumpsObj lvl kvs = kvs.map (fun kv => (kv.1, dumpsAt lvl kv.2)) := by
    intro kvs
    induction kvs with
    | nil => rfl
    | cons kv kvs ih => simp [dumpsObj, ih]
  rw [h₁, h₁]
  exact hp.map _

theorem insertionSort_eq_of_perm_nodup_keys (l₁ l₂ : List (String × String))
    (hp : l₁.Perm l₂) (hnd : (l₁.map Prod.fst).Nodup) :
    List.insertionSort keyLeS l₁ = List.insertionSort keyLeS l₂ := by
  haveI : IsAntisymm (String × String) (fun a b => a.1 < b.1) :=
    ⟨fun _ _ h1 h2 => (lt_asymm h1 h2).elim⟩
  have hperm : (List.insertionSort keyLeS l₁).Perm (List.insertionSort keyLeS l₂) :=
    (List.perm_insertionSort keyLeS l₁).trans (hp.trans (List.perm_insertionSort keyLeS l₂).symm)
  have strictSorted : ∀ l : List (String × String), (l.map Prod.fst).Nodup →
      (List.insertionSort keyLeS l).Pairwise (fun a b => a.1 < b.1) := by
    intro l hl
    have hsorted : (List.insertionSort keyLeS l).Pairwise keyLeS :=
      List.sorted_insertionSort keyLeS l
    have hnds : ((List.insertionSort keyLeS l).map Prod.fst).Nodup := by
      have := (List.perm_insertionSort keyLeS l).map Prod.fst
      exact this.nodup_iff.mpr hl
    have hne : (List.insertionSort keyLeS l).Pairwise (fun a b => a.1 ≠ b.1) :=
      (List.pairwise_map.mp hnds)
    exact (hsorted.and hne).imp fun h => lt_of_le_of_ne h.1 h.2
  have hnd₂ : (l₂.map Prod.fst).Nodup := ((hp.map Prod.fst).nodup_iff).mp hnd
  exact List.eq_of_perm_of_sorted hperm (strictSorted l₁ hnd) (strictSorted l₂ hnd₂)

/-- Two manifest mappings holding the same key/value pairs (in any insertion
order, with unique keys) serialize to the same bytes. -/
theorem jsonDumpsManifest_perm (m₁ m₂ : List (String × JValue))
    (hp : m₁.Perm m₂) (hnd : (m₁.map Prod.fst).Nodup) :
    jsonDumpsManifest m₁ = jsonDumpsManifest m₂ := by
  match m₁, m₂, hp with
  | [], [], _ => rfl
  | [], k :: ks, hp => exact absurd (hp.symm.eq_nil) (by simp)
  | k :: ks, [], hp => exact absurd hp.eq_nil (by simp)
  | k₁ :: ks₁, k₂ :: ks₂, hp =>
    unfold jsonDumpsManifest
    unfold dumpsAt
    have hobj : (dumpsObj 1 (k₁ :: ks₁)).Perm (dumpsObj 1 (k₂ :: ks₂)) := dumpsObj_perm 1 _ _ hp
    have hkeys : ((dumpsObj 1 (k₁ :: ks₁)).map Prod.fst).Nodup := by
      rw [dumpsObj_map_fst]
      exact hnd
    rw [insertionSort_eq_of_perm_nodup_keys _ _ hobj hkeys]

/-- C4: packaging yields a single archive whose member list is the entire
contents of the context directory at its root, followed by a `Dockerfile`
member holding exactly the given text and an `absconda-manifest.json` member
holding the indented, key-sorted JSON serialization of the manifest; packaging
the same `(contextDir, dockerfileText, manifest)` twice — at different times,
to different temporary paths, and with the manifest mapping in any insertion
order — yields archives whose manifest members are byte-identical. -/
theorem C4_packaging (ctx : List TarEntry) (dockerfile contextDir tp₁ tp₂ : String)
    (m₁ m₂ : List (String × JValue)) (now₁ now₂ : Nat)
    (hp : m₁.Perm m₂) (hnd : (m₁.map Prod.fst).Nodup) :
    _create_context_tarball true contextDir ctx dockerfile m₁ now₁ tp₁ =
      Except.ok (tp₁, ctx ++
        [⟨"Dockerfile", dockerfile, now₁⟩,
         ⟨"absconda-manifest.json", jsonDumpsManifest m₁, now₁⟩]) ∧
    _create_context_tarball true contextDir ctx dockerfile m₂ now₂ tp₂ =
      Except.ok (tp₂, ctx ++
        [⟨"Dockerfile", dockerfile, now₂⟩,
         ⟨"absconda-manifest.json", jsonDumpsManifest m₁, now₂⟩]) := by
  constructor
  · rfl
  · rw [jsonDumpsManifest_perm m₁ m₂ hp hnd]
    rfl

/-- Witness for C4: a two-key manifest given in two insertion orders, packaged
at different times and temporary paths. -/
theorem C4_packaging_witness :
    _create_context_tarball true "/ctx" [⟨"./f.txt", "hello", 5⟩] "FROM busybox"
        [("b", JValue.num 2), ("a", JValue.str "x")] 100 "/tmp/t1.tar.gz" =
      Except.ok ("/tmp/t1.tar.gz", [⟨"./f.txt", "hello", 5⟩] ++
        [⟨"Dockerfile", "FROM busybox", 100⟩,
         ⟨"absconda-manifest.json",
          jsonDumpsManifest [("b", JValue.num 2), ("a", JValue.str "x")], 100⟩]) ∧
    _create_context_tarball true "/ctx" [⟨"./f.txt", "hello", 5⟩] "FROM busybox"
        [("a", JValue.str "x"), ("b", JValue.num 2)] 200 "/tmp/t2.tar.gz" =
      Except.ok ("/tmp/t2.tar.gz", [⟨"./f.txt", "hello", 5⟩] ++
        [⟨"Dockerfile", "FROM busybox", 200⟩,
         ⟨"absconda-manifest.json",
          jsonDumpsManifest [("b", JValue.num 2), ("a", JValue.str "x")], 200⟩]) :=
  C4_packaging [⟨"./f.txt", "hello", 5⟩] "FROM busybox" "/ctx" "/tmp/t1.tar.gz" "/tmp/t2.tar.gz"
    [("b", JValue.num 2), ("a", JValue.str "x")]
    [("a", JValue.str "x"), ("b", JValue.num 2)] 100 200
    (List.Perm.swap _ _ _) (by decide)

/-! ## Subprocess execution (`_run_subprocess`, remote.py lines 655-663) -/

/-- Outcome of one `subprocess.run(command, check=True)` call, supplied by the
world: normal exit, `FileNotFoundError` (missing executable, carrying the
exception text), `CalledProcessError` (non-zero exit code), or some other
`OSError`. -/
inductive RunOutcome where
  | ok
  | notFound (excText : String)
  | exit (returncode : Int)
  | osErr (msg : String)
  deriving DecidableEq

/-- `_run_subprocess`: converts `FileNotFoundError` and `CalledProcessError`
into `RemoteError` with a descriptive message; any other exception raised by
`subprocess.run` propagates unchanged.  `none` means the command succeeded. -/
def _run_subprocess (exec : List String → RunOutcome) (command : List String) : Option PyExc :=
  match exec command with
  | RunOutcome.ok => none
  | RunOutcome.notFound t =>
    some (PyExc.remoteError ("Command '" ++ command.headD "" ++ "' not found: " ++ t))
  | RunOutcome.exit rc =>
    some (PyExc.remoteError ("Command '" ++ String.intercalate " " command ++
      "' failed with exit code " ++ toString rc ++ "."))
  | RunOutcome.osErr m => some (PyExc.osError m)

/-- Whether the outcome is one of the failure kinds `_run_subprocess` converts
to `RemoteError` (or success) — as opposed to an unrelated `OSError` escaping
`subprocess.run` itself. -/
def isSubprocessLevel : RunOutcome → Bool
  | RunOutcome.osErr _ => false
  | _ => true

/-! ## Status probe (`check_remote_status`, remote.py lines 116-154) -/

/-- `RemoteStatus` (remote.py lines 56-65). -/
structure RemoteStatus where
  name : String
  reachable : Bool
  busy : Bool
  lock_owner : Option String
  lock_path : String
  health_ok : Option Bool
  ssh_error : Option String
  health_error : Option String
  deriving DecidableEq

/-- The state visible to `check_remote_status`: whether the lock file exists,
its content (`none` models an `OSError` on read), and the outcome of each
subprocess invocation. -/
structure StatusWorld where
  lockExists : Bool
  lockRead : Option String
  exec : List String → RunOutcome

/-- The health-check half of `check_remote_status` (remote.py lines 135-154),
assembling the final snapshot. -/
def checkHealthInto (w : StatusWorld) (d : RemoteBuilderDefinition)
    (reachable : Bool) (ssh_error : Option String) (busy : Bool)
    (lock_owner : Option String) : Except PyExc RemoteStatus :=
  match d.health_command with
  | some (c :: cs) =>
    match _run_subprocess w.exec (c :: cs) with
    | none =>
      Except.ok ⟨d.name, reachable, busy, lock_owner, d.lock_file, some true, ssh_error, none⟩
    | some (PyExc.remoteError m) =>
      Except.ok ⟨d.name, reachable, busy, lock_owner, d.lock_file, some false, ssh_error, some m⟩
    | some e => Except.error e
  | _ =>
    Except.ok ⟨d.name, reachable, busy, lock_owner, d.lock_file, none, ssh_error, none⟩

/-- `check_remote_status`: probe the lock file (best-effort owner read,
stripped, empty or unreadable giving no owner), run the no-op remote command
`:` for reachability (catching only `RemoteError`), and run the health command
when one is configured and nonempty (Python truthiness); reachability and
health failures are encoded in the returned snapshot.  `lock_path` is the
expanded `lock_file` (paths here are modelled post-expansion). -/
def check_remote_status (w : StatusWorld) (d : RemoteBuilderDefinition) :
    Except PyExc RemoteStatus :=
  let busy := w.lockExists
  let lock_owner : Option String :=
    if busy then
      match w.lockRead with
      | some content => if content.trim = "" then none else some content.trim
      | none => none
    else none
  match _run_subprocess w.exec (_remote_shell_command d ":" none) with
  | some (PyExc.remoteError m) =>
    checkHealthInto w d false (some m) busy lock_owner
  | some e => Except.error e
  | none =>
    checkHealthInto w d true none busy lock_owner

/-- C8: the status probe returns a `RemoteStatus` snapshot and never raises
when the reachability or health commands fail (at the subprocess level, the
failures `_run_subprocess` demotes to `RemoteError`): a failing no-op command
yields `reachable = false` with a populated diagnostic, an unreadable lock
file yields busy with unknown owner, a configured failing health command
yields `health_ok = some false` with diagnostic text, and health is the
distinct not-applicable state `none` when no (nonempty) health command is
configured. -/
theorem C8_status_probe (w : StatusWorld) (d : RemoteBuilderDefinition)
    (hno : isSubprocessLevel (w.exec (_remote_shell_command d ":" none)) = true)
    (hh : ∀ c cs, d.health_command = some (c :: cs) →
      isSubprocessLevel (w.exec (c :: cs)) = true) :
    ∃ s : RemoteStatus, check_remote_status w d = Except.ok s ∧
      (w.exec (_remote_shell_command d ":" none) ≠ RunOutcome.ok →
        s.reachable = false ∧ s.ssh_error.isSome = true) ∧
      (w.exec (_remote_shell_command d ":" none) = RunOutcome.ok → s.reachable = true) ∧
      (w.lockExists = true ∧ w.lockRead = none → s.busy = true ∧ s.lock_owner = none) ∧
      (∀ c cs, d.health_command = some (c :: cs) → w.exec (c :: cs) ≠ RunOutcome.ok →
        s.health_ok = some false ∧ s.health_error.isSome = true) ∧
      ((d.health_command = none ∨ d.health_command = some []) → s.health_ok = none) := by
  have main : ∀ reachable ssh_error busy lock_owner,
      ∃ s : RemoteStatus, checkHealthInto w d reachable ssh_error busy lock_owner =
          Except.ok s ∧
        s.reachable = reachable ∧ s.ssh_error = ssh_error ∧ s.busy = busy ∧
        s.lock_owner = lock_owner ∧
        (∀ c cs, d.health_command = some (c :: cs) → w.exec (c :: cs) ≠ RunOutcome.ok →
          s.health_ok = some false ∧ s.health_error.isSome = true) ∧
        ((d.health_command = none ∨ d.health_command = some []) → s.health_ok = none) := by
    intro reachable ssh_error busy lock_owner
    rcases hhc : d.health_command with - | hc
    · simp only [checkHealthInto, hhc]
      refine ⟨_, rfl, rfl, rfl, rfl, rfl, ?_, fun _ => rfl⟩
      intro c' cs' hc' _
      simp at hc'
    · rcases hc with - | ⟨c, cs⟩
      · simp only [checkHealthInto, hhc]
        refine ⟨_, rfl, rfl, rfl, rfl, rfl, ?_, fun _ => rfl⟩
        intro c' cs' hc' _
        simp at hc'
      · have hsub := hh c cs hhc
        rcases hhe : w.exec (c :: cs) with - | t | rc | m
        · simp only [checkHealthInto, hhc, _run_subprocess, hhe]
          refine ⟨_, rfl, rfl, rfl, rfl, rfl, ?_, ?_⟩
          · intro c' cs' hc' hne
            simp only [Option.some.injEq, List.cons.injEq] at hc'
            obtain ⟨h1, h2⟩ := hc'
            subst h1; subst h2
            exact absurd hhe hne
          · rintro (h | h) <;> simp at h
        · simp only [checkHealthInto, hhc, _run_subprocess, hhe]
          refine ⟨_, rfl, rfl, rfl, rfl, rfl, fun _ _ _ _ => ⟨rfl, rfl⟩, ?_⟩
          rintro (h | h) <;> simp at h
        · simp only [checkHealthInto, hhc, _run_subprocess, hhe]
          refine ⟨_, rfl, rfl, rfl, rfl, rfl, fun _ _ _ _ => ⟨rfl, rfl⟩, ?_⟩
          rintro (h | h) <;> simp at h
        · rw [hhe] at hsub
          exact absurd hsub (by simp [isSubprocessLevel])
  rcases hne : w.exec (_remote_shell_command d ":" none) with - | t | rc | m
  · obtain ⟨s, hs, h1, h2, h3, h4, h5, h6⟩ := main true none w.lockExists
      (if w.lockExists then
        match w.lockRead with
        | some content => if content.trim = "" then none else some content.trim
        | none => none
      else none)
    refine ⟨s, ?_, fun hneq => absurd rfl hneq, fun _ => h1, ?_, h5, h6⟩
    · simp only [check_remote_status, _run_subprocess, hne]
      exact hs
    · rintro ⟨hl, hr⟩
      exact ⟨by simp [h3, hl], by simp [h4, hl, hr]⟩
  · obtain ⟨s, hs, h1, h2, h3, h4, h5, h6⟩ := main false (some _) w.lockExists
      (if w.lockExists then
        match w.lockRead with
        | some content => if content.trim = "" then none else some content.trim
        | none => none
      else none)
    refine ⟨s, ?_, fun _ => ⟨h1, by simp [h2]⟩, fun hok => absurd hok (by simp), ?_, h5, h6⟩
    · simp only [check_remote_status, _run_subprocess, hne]
      exact hs
    · rintro ⟨hl, hr⟩
      exact ⟨by simp [h3, hl], by simp [h4, hl, hr]⟩
  · obtain ⟨s, hs, h1, h2, h3, h4, h5, h6⟩ := main false (some _) w.lockExists
      (if w.lockExists then
        match w.lockRead with
        | some content => if content.trim = "" then none else some content.trim
        | none => none
      else none)
    refine ⟨s, ?_, fun _ => ⟨h1, by simp [h2]⟩, fun hok => absurd hok (by simp), ?_, h5, h6⟩
    · simp only [check_remote_status, _run_subprocess, hne]
      exact hs
    · rintro ⟨hl, hr⟩
      exact ⟨by simp [h3, hl], by simp [h4, hl, hr]⟩
  · rw [hne] at hno
    exact absurd hno (by simp [isSubprocessLevel])

/-- A builder definition with a health command, used by the C8 witness. -/
def statusDefn : RemoteBuilderDefinition :=
  { name := "st", ssh_target := "user@host", workspace := "/srv/builds",
    ssh_port := 22, ssh_key := none, ssh_options := [],
    start_command := none, stop_command := none, lock_file := "/tmp/st.lock",
    provision_command := none, health_command := some ["check-health"],
    metadata := [] }

/-- Witness for C8: busy lock with unreadable content, every command exiting
nonzero. -/
theorem C8_status_probe_witness :
    ∃ s : RemoteStatus,
      check_remote_status ⟨true, none, fun _ => RunOutcome.exit 1⟩ statusDefn =
          Except.ok s ∧
      ((fun _ => RunOutcome.exit 1 : List String → RunOutcome)
          (_remote_shell_command statusDefn ":" none) ≠ RunOutcome.ok →
        s.reachable = false ∧ s.ssh_error.isSome = true) ∧
      ((fun _ => RunOutcome.exit 1 : List String → RunOutcome)
          (_remote_shell_command statusDefn ":" none) = RunOutcome.ok → s.reachable = true) ∧
      ((true = true ∧ (none : Option String) = none) → s.busy = true ∧ s.lock_owner = none) ∧
      (∀ c cs, statusDefn.health_command = some (c :: cs) →
        (fun _ => RunOutcome.exit 1 : List String → RunOutcome) (c :: cs) ≠ RunOutcome.ok →
        s.health_ok = some false ∧ s.health_error.isSome = true) ∧
      ((statusDefn.health_command = none ∨ statusDefn.health_command = some []) →
        s.health_ok = none) :=
  C8_status_probe ⟨true, none, fun _ => RunOutcome.exit 1⟩ statusDefn rfl
    (fun _ _ _ => rfl)

/-! ## Configuration loading (`_load_builders_section`, remote.py lines 157-197) -/

/-- The world visible to `_load_builders_section`: file existence, the result
of parsing and env-expanding a YAML file (`_read_remote_yaml`, which may raise
`RemoteConfigError`), the result of upward and environment-variable discovery
(`_discover_remote_config_path(None)`, which may itself raise when the
override names a missing file), and the structured (XDG) configuration store
with its display path. -/
structure ConfigWorld where
  fileExists : String → Bool
  readYaml : String → Except PyExc (List (String × ConfigValue))
  discovered : Except PyExc (Option String)
  xdgRemoteBuilders : List (String × ConfigValue)
  xdgDisplayPath : String

/-- The error message of the final fallback (remote.py lines 192-197). -/
def noConfigFoundMsg : String :=
  "Remote builder config not found. Options:\n" ++
  "  1. Create 'absconda-remote.yaml' in current directory\n" ++
  "  2. Create '~/.config/absconda/config.yaml' with remote_builders section\n" ++
  "  3. Pass --remote-config <path>"

/-- The XDG fallback tail of `_load_builders_section` (remote.py lines
184-197): a truthy `remote_builders` store wins, else the not-found error. -/
def loadXdg (w : ConfigWorld) : Except PyExc (String × List (String × ConfigValue)) :=
  match w.xdgRemoteBuilders with
  | b :: bs => Except.ok (w.xdgDisplayPath, b :: bs)
  | [] => Except.error (PyExc.remoteConfigError noConfigFoundMsg)

/-- `_load_builders_section`: with an explicit `config_path` that path is the
only source consulted — the file must exist and contain a non-empty `builders`
mapping, else a `RemoteConfigError` is raised at once; with no explicit path,
the discovered file is tried (falling through when it lacks a non-empty
`builders` mapping), then the XDG store, then the not-found error. -/
def _load_builders_section (w : ConfigWorld) (config_path : Option String) :
    Except PyExc (String × List (String × ConfigValue)) :=
  match config_path with
  | some p =>
    if w.fileExists p = false then
      Except.error (PyExc.remoteConfigError ("Config file '" ++ p ++ "' not found."))
    else
      match w.readYaml p with
      | Except.error e => Except.error e
      | Except.ok data =>
        match data.lookup "builders" with
        | some (ConfigValue.dict (b :: bs)) => Except.ok (p, b :: bs)
        | _ => Except.error (PyExc.remoteConfigError ("No builders defined in '" ++ p ++ "'."))
  | none =>
    match w.discovered with
    | Except.error e => Except.error e
    | Except.ok (some path) =>
      match w.readYaml path with
      | Except.error e => Except.error e
      | Except.ok data =>
        match data.lookup "builders" with
        | some (ConfigValue.dict (b :: bs)) => Except.ok (path, b :: bs)
        | _ => loadXdg w
    | Except.ok none => loadXdg w

/-- C10: with an explicit configuration path, that path is the only source
consulted — the result is the same for any two worlds that agree on that one
file (so the discovery walk, the environment override and the XDG store are
never consulted), and a file that exists but yields no non-empty `builders`
mapping fails immediately with the configuration error. -/
theorem C10_explicit_path_sole_source (w₁ w₂ : ConfigWorld) (p : String)
    (hex : w₁.fileExists p = w₂.fileExists p)
    (hry : w₁.readYaml p = w₂.readYaml p) :
    _load_builders_section w₁ (some p) = _load_builders_section w₂ (some p) ∧
    (w₁.fileExists p = true →
      ∀ data, w₁.readYaml p = Except.ok data →
        (∀ b bs, data.lookup "builders" ≠ some (ConfigValue.dict (b :: bs))) →
        _load_builders_section w₁ (some p) =
          Except.error (PyExc.remoteConfigError ("No builders defined in '" ++ p ++ "'."))) := by
  constructor
  · simp only [_load_builders_section, hex, hry]
  · intro hfe data hdata hnb
    simp only [_load_builders_section, hfe, Bool.true_eq_false, if_false, hdata]

/-- A concrete world whose explicit file exists but holds an empty `builders`
mapping, while discovery and the XDG store would both succeed. -/
def cfgWorldA : ConfigWorld :=
  { fileExists := fun q => q = "/cfg.yaml" || q = "/other.yaml",
    readYaml := fun _ => Except.ok [("builders", ConfigValue.dict [])],
    discovered := Except.ok (some "/other.yaml"),
    xdgRemoteBuilders := [("b1", ConfigValue.dict [])],
    xdgDisplayPath := "/home/u/.config/absconda/config.yaml" }

/-- Like `cfgWorldA` at `/cfg.yaml`, but with entirely different fallback
sources. -/
def cfgWorldB : ConfigWorld :=
  { fileExists := fun q => q = "/cfg.yaml",
    readYaml := fun _ => Except.ok [("builders", ConfigValue.dict [])],
    discovered := Except.error (PyExc.remoteConfigError "boom"),
    xdgRemoteBuilders := [],
    xdgDisplayPath := "XDG config" }

/-- Witness for C10: the two worlds agree only on the explicit file, and the
empty `builders` mapping fails immediately. -/
theorem C10_explicit_path_sole_source_witness :
    _load_builders_section cfgWorldA (some "/cfg.yaml") =
      _load_builders_section cfgWorldB (some "/cfg.yaml") ∧
    (cfgWorldA.fileExists "/cfg.yaml" = true →
      ∀ data, cfgWorldA.readYaml "/cfg.yaml" = Except.ok data →
        (∀ b bs, data.lookup "builders" ≠ some (ConfigValue.dict (b :: bs))) →
        _load_builders_section cfgWorldA (some "/cfg.yaml") =
          Except.error (PyExc.remoteConfigError
            ("No builders defined in '" ++ "/cfg.yaml" ++ "'."))) :=
  C10_explicit_path_sole_source cfgWorldA cfgWorldB "/cfg.yaml" (by decide) rfl

/-! ## Build pipeline (`build_remote_image` and `_RemoteSession`,
remote.py lines 200-244 and 491-593) -/

/-- Observable events of the build pipeline, tagged by the producing call
site: console messages, lock-loop events, the lock release (recording whether
an unlink was attempted), remote-shell and file-transfer subprocess
invocations, lifecycle-command subprocess invocations (start/stop), the
30-second post-start settle sleep, and local unlinks. -/
inductive Event where
  | msg (s : String)
  | lock (e : LockEvent)
  | lockReleased (unlinkAttempted : Bool)
  | shell (cmd : List String)
  | upload (cmd : List String)
  | lifecycle (cmd : List String)
  | sleepSettle
  | localUnlink (path : String)
  deriving DecidableEq

/-- The world visible to the pipeline: subprocess outcomes, the lock file held
by other processes over time with its content, the unlink outcome on release,
and whether the context directory exists. -/
structure World where
  exec : List String → RunOutcome
  lockBusyAt : Nat → Bool
  lockOwnerAt : Nat → Option String
  lockUnlink : UnlinkOutcome
  contextExists : Bool

/-- Values one `_RemoteSession` draws from the clock, `uuid` and `tempfile`:
the UTC timestamp string, the 8-hex-digit slug, the temporary tarball path,
plus the walked context entries and mtime used by the packaging step. -/
structure SessionParams where
  timestamp : String
  slug : String
  tarPath : String
  contextEntries : List TarEntry
  now : Nat

/-- `posixpath.join` for one component: `b` absolute wins; otherwise `a` and
`b` are joined with a separator unless `a` is empty or already ends in one. -/
def posixJoin (a b : String) : String :=
  if b.data.head? = some '/' then b
  else if a = "" ∨ a.data.getLast? = some '/' then a ++ b
  else a ++ "/" ++ b

/-- `run_id = f"\x7bname\x7d-\x7btimestamp\x7d-\x7bslug\x7d"` (remote.py line 497). -/
def runId (d : RemoteBuilderDefinition) (sp : SessionParams) : String :=
  d.name ++ "-" ++ sp.timestamp ++ "-" ++ sp.slug

/-- `workspace.rstrip("/") or "/"`, then `posixpath.join(workspace, run_id)`
(remote.py lines 498-499). -/
def remoteDir (d : RemoteBuilderDefinition) (sp : SessionParams) : String :=
  let workspace := d.workspace.dropRightWhile (fun c => c = '/')
  posixJoin (if workspace = "" then "/" else workspace) (runId d sp)

/-- `remote_tar = f"\x7bremote_dir\x7d.tar.gz"` (remote.py line 500). -/
def remoteTar (d : RemoteBuilderDefinition) (sp : SessionParams) : String :=
  remoteDir d sp ++ ".tar.gz"

/-- `_ensure_workspace` payload (remote.py lines 537-542). -/
def ensureWorkspacePayload (d : RemoteBuilderDefinition) : String :=
  "set -euo pipefail && mkdir -p " ++ shlexQuote d.workspace

/-- `_extract_context` payload (remote.py lines 549-561): one chained command
creating the run directory, extracting the archive into it and removing the
remote archive. -/
def extractPayload (d : RemoteBuilderDefinition) (sp : SessionParams) : String :=
  String.intercalate " && "
    ["set -euo pipefail",
     "mkdir -p " ++ shlexQuote (remoteDir d sp),
     "tar -xzf " ++ shlexQuote (remoteTar d sp) ++ " -C " ++ shlexQuote (remoteDir d sp),
     "rm -f " ++ shlexQuote (remoteTar d sp)]

/-- `_run_build` payload (remote.py lines 563-576); the push step is appended
to the same chain only when `push` is requested. -/
def buildPayload (d : RemoteBuilderDefinition) (sp : SessionParams)
    (image_ref : String) (push : Bool) : String :=
  String.intercalate " && "
    (["set -euo pipefail",
      "cd " ++ shlexQuote (remoteDir d sp),
      "DOCKER_BUILDKIT=1 docker build -t " ++ shlexQuote image_ref ++ " ."] ++
      (if push then ["sudo docker push " ++ shlexQuote image_ref] else []))

/-- `_cleanup_remote` payload (remote.py lines 578-581). -/
def cleanupPayload (d : RemoteBuilderDefinition) (sp : SessionParams) : String :=
  "rm -rf " ++ shlexQuote (remoteDir d sp) ++ " " ++ shlexQuote (remoteTar d sp)

/-- Membership in `except (subprocess.CalledProcessError, OSError)` — the
handler around the auto-stop (remote.py line 525): `CalledProcessError`,
`FileNotFoundError` (an `OSError` subclass) and other `OSError`s are caught;
`RemoteError` and `RemoteConfigError` are plain `Exception` subclasses and
are not. -/
def caughtByStopHandler : PyExc → Bool
  | PyExc.calledProcessError _ => true
  | PyExc.fileNotFoundError _ => true
  | PyExc.osError _ => true
  | _ => false

/-- `str(e)` for the caught exception in the warning message. -/
def pyExcText : PyExc → String
  | PyExc.remoteError m => m
  | PyExc.remoteConfigError m => m
  | PyExc.calledProcessError rc =>
    "Command returned non-zero exit status " ++ toString rc ++ "."
  | PyExc.fileNotFoundError m => m
  | PyExc.osError m => m

/-- The `finally` block of `_RemoteSession.execute_build` (remote.py lines
518-526): best-effort remote cleanup (a `RemoteError` is demoted to a console
warning, any other exception escapes), then — when a stop command is
configured and nonempty (Python truthiness) — the auto-stop, whose
`except (subprocess.CalledProcessError, OSError)` handler does not cover the
`RemoteError` that `_run_subprocess` converts command failures into, so such a
failure escapes this block. -/
def sessionFinally (w : World) (d : RemoteBuilderDefinition) (sp : SessionParams) :
    List Event × Option PyExc :=
  let c5 := _remote_shell_command d (cleanupPayload d sp) none
  let cleanup : List Event × Option PyExc :=
    match _run_subprocess w.exec c5 with
    | none => ([Event.shell c5], none)
    | some (PyExc.remoteError _) =>
      ([Event.shell c5,
        Event.msg ("[bold yellow]warning[/bold yellow]: Failed to remove " ++
          remoteDir d sp ++ " on remote host.")], none)
    | some e => ([Event.shell c5], some e)
  match cleanup.2 with
  | some e => (cleanup.1, some e)
  | none =>
    match d.stop_command with
    | some (c :: cs) =>
      let evs := cleanup.1 ++
        [Event.msg ("Stopping remote builder [cyan]" ++ d.name ++ "[/cyan]..."),
         Event.lifecycle (c :: cs)]
      match _run_subprocess w.exec (c :: cs) with
      | none => (evs, none)
      | some e =>
        if caughtByStopHandler e then
          (evs ++ [Event.msg ("[yellow]Warning: Failed to stop builder: " ++
            pyExcText e ++ "[/yellow]")], none)
        else (evs, some e)
    | _ => (cleanup.1, none)

/-- `_RemoteSession.execute_build` (remote.py lines 503-526): package the
context (raising when the context directory is missing), ensure the remote
workspace, upload the tarball, then extract and build under a `try` whose
`finally` runs the remote cleanup and conditional auto-stop.  A `finally`
whose code raises replaces the in-flight exception, as in Python. -/
def execute_build (w : World) (d : RemoteBuilderDefinition) (sp : SessionParams)
    (dockerfile : String) (context_path : String) (image_ref : String) (push : Bool)
    (manifest : List (String × JValue)) : List Event × Option PyExc :=
  let e0 := [Event.msg "Packaging Docker context for remote transfer..."]
  match _create_context_tarball w.contextExists context_path sp.contextEntries
      dockerfile manifest sp.now sp.tarPath with
  | Except.error e => (e0, some e)
  | Except.ok _ =>
    let c1 := _remote_shell_command d (ensureWorkspacePayload d) none
    match _run_subprocess w.exec c1 with
    | some e => (e0 ++ [Event.shell c1], some e)
    | none =>
      let c2 := _remote_scp_upload d sp.tarPath (remoteTar d sp)
      match _run_subprocess w.exec c2 with
      | some e => (e0 ++ [Event.shell c1, Event.upload c2], some e)
      | none =>
        let c3 := _remote_shell_command d (extractPayload d sp) none
        let tryPart : List Event × Option PyExc :=
          match _run_subprocess w.exec c3 with
          | some e => ([Event.shell c3], some e)
          | none =>
            let c4 := _remote_shell_command d (buildPayload d sp image_ref push) none
            ([Event.shell c3, Event.shell c4], _run_subprocess w.exec c4)
        let fin := sessionFinally w d sp
        (e0 ++ [Event.shell c1, Event.upload c2] ++ tryPart.1 ++ fin.1,
          match fin.2 with
          | some e => some e
          | none => tryPart.2)

/-- The body of the `with _RemoteLock(...)` block of `build_remote_image`
(remote.py lines 222-244): optional start (Python truthiness on
`start_command`, announcing, running the command, then the 30-second settle
wait), the session's `execute_build` with `cleanup_local` as an outer
`finally` (the tarball exists exactly when packaging succeeded), then — only
on success and when `shutdown_after` was requested — the `--remote-off` stop,
whose failure is not caught here. -/
def withLockBody (w : World) (d : RemoteBuilderDefinition) (sp : SessionParams)
    (dockerfile context_path image_ref : String) (push shutdown_after : Bool)
    (manifest : List (String × JValue)) : List Event × Option PyExc :=
  let start : List Event × Option PyExc :=
    match d.start_command with
    | some (c :: cs) =>
      let evs := [Event.msg ("Starting remote builder [cyan]" ++ d.name ++ "[/cyan]..."),
        Event.lifecycle (c :: cs)]
      match _run_subprocess w.exec (c :: cs) with
      | some e => (evs, some e)
      | none =>
        (evs ++ [Event.msg "Waiting for instance to be ready...", Event.sleepSettle], none)
    | _ => ([], none)
  match start.2 with
  | some e => (start.1, some e)
  | none =>
    let eb := execute_build w d sp dockerfile context_path image_ref push manifest
    let cl : List Event := if w.contextExists then [Event.localUnlink sp.tarPath] else []
    match eb.2 with
    | some e => (start.1 ++ eb.1 ++ cl, some e)
    | none =>
      if shutdown_after then
        match d.stop_command with
        | some (c :: cs) =>
          (start.1 ++ eb.1 ++ cl ++
            [Event.msg ("Stopping builder '" ++ d.name ++ "' (requested by --remote-off)."),
             Event.lifecycle (c :: cs)],
            _run_subprocess w.exec (c :: cs))
        | _ =>
          (start.1 ++ eb.1 ++ cl ++
            [Event.msg ("[bold yellow]warning[/bold yellow]: --remote-off requested " ++
              "but no stop_command is configured for builder '" ++ d.name ++
              "'. Skipping shutdown.")], none)
      else (start.1 ++ eb.1 ++ cl, none)

/-- `build_remote_image` (remote.py lines 200-244): check the context
directory, announce the builder, acquire the lock with the wait budget, run
the body, and release the lock on every exit path after `__enter__` succeeded
(a raising release replaces the in-flight exception, as in Python's `with`;
a failed acquisition skips both body and release). -/
def build_remote_image (w : World) (d : RemoteBuilderDefinition) (sp : SessionParams)
    (dockerfile : String) (context_path : String) (image_ref : String) (push : Bool)
    (wait_seconds : Nat) (shutdown_after : Bool) (manifest : List (String × JValue)) :
    List Event × Option PyExc :=
  if w.contextExists = false then
    ([], some (PyExc.remoteError ("Context directory '" ++ context_path ++ "' does not exist.")))
  else
    let e0 := [Event.msg ("Using remote builder [cyan]" ++ d.name ++ "[/cyan] at " ++
      d.ssh_target)]
    let lockR := lockAcquire w.lockBusyAt w.lockOwnerAt wait_seconds d.lock_file
    let lockEvs := lockR.1.map Event.lock
    match lockR.2 with
    | Except.error e => (e0 ++ lockEvs, some e)
    | Except.ok _ =>
      let body := withLockBody w d sp dockerfile context_path image_ref push
        shutdown_after manifest
      let ex := lockExit true w.lockUnlink
      (e0 ++ lockEvs ++ body.1 ++ [Event.lockReleased ex.1],
        match ex.2 with
        | some e => some e
        | none => body.2)

/-- Remote-affecting commands: remote-shell executions and file transfers. -/
def isTransport : Event → Bool
  | Event.shell _ => true
  | Event.upload _ => true
  | _ => false

/-- C1: for every builder definition with a non-empty workspace, an ssh
target, no stop command and `push = false`, executing the build pipeline
against an existing context directory (free lock, all commands succeeding)
issues exactly five remote-affecting commands, strictly in this order: the
remote workspace mkdir, the archive transfer, the chained
mkdir-extract-remove command, the build command referencing the image ref
(with no push step in its chain), and the recursive-remove cleanup; every
lifecycle command issued is the start command, so no stop command is issued,
and no push command exists anywhere (the build payload is the push-free
chain). -/
theorem C1_build_pipeline (w : World) (d : RemoteBuilderDefinition) (sp : SessionParams)
    (dockerfile context_path image_ref : String) (wait_seconds : Nat)
    (shutdown_after : Bool) (manifest : List (String × JValue))
    (hws : d.workspace ≠ "") (htarget : d.ssh_target ≠ "")
    (hstop : d.stop_command = none) (hctx : w.contextExists = true)
    (hlock : w.lockBusyAt 0 = false) (hexec : ∀ c, w.exec c = RunOutcome.ok) :
    (build_remote_image w d sp dockerfile context_path image_ref false wait_seconds
        shutdown_after manifest).1.filter isTransport =
      [Event.shell (_remote_shell_command d (ensureWorkspacePayload d) none),
       Event.upload (_remote_scp_upload d sp.tarPath (remoteTar d sp)),
       Event.shell (_remote_shell_command d (extractPayload d sp) none),
       Event.shell (_remote_shell_command d (buildPayload d sp image_ref false) none),
       Event.shell (_remote_shell_command d (cleanupPayload d sp) none)] ∧
    (∀ c, Event.lifecycle c ∈ (build_remote_image w d sp dockerfile context_path image_ref
        false wait_seconds shutdown_after manifest).1 → d.start_command = some c) := by
  have hrun : ∀ c, _run_subprocess w.exec c = none := fun c => by
    simp [_run_subprocess, hexec c]
  have hacq : lockAcquire w.lockBusyAt w.lockOwnerAt wait_seconds d.lock_file =
      ([LockEvent.attempt 0], Except.ok 0) := by
    unfold lockAcquire
    rcases wait_seconds with - | - | b <;> simp [lockLoop, hlock]
  have hfin : sessionFinally w d sp =
      ([Event.shell (_remote_shell_command d (cleanupPayload d sp) none)], none) := by
    simp [sessionFinally, hrun, hstop]
  have heb : execute_build w d sp dockerfile context_path image_ref false manifest =
      ([Event.msg "Packaging Docker context for remote transfer...",
        Event.shell (_remote_shell_command d (ensureWorkspacePayload d) none),
        Event.upload (_remote_scp_upload d sp.tarPath (remoteTar d sp)),
        Event.shell (_remote_shell_command d (extractPayload d sp) none),
        Event.shell (_remote_shell_command d (buildPayload d sp image_ref false) none),
        Event.shell (_remote_shell_command d (cleanupPayload d sp) none)], none) := by
    simp [execute_build, _create_context_tarball, hctx, hrun, hfin]
  constructor
  · rcases hsc : d.start_command with - | sc
    · cases shutdown_after <;>
        simp [build_remote_image, hctx, hacq, withLockBody, hsc, heb, hstop,
          List.filter_append, isTransport]
    · rcases sc with - | ⟨c0, cs⟩ <;> cases shutdown_after <;>
        simp [build_remote_image, hctx, hacq, withLockBody, hsc, heb, hstop, hrun,
          List.filter_append, isTransport]
  · intro c hc
    rcases hsc : d.start_command with - | sc
    · cases shutdown_after <;>
        simp [build_remote_image, hctx, hacq, withLockBody, hsc, heb, hstop] at hc
    · rcases sc with - | ⟨c0, cs⟩ <;> cases shutdown_after <;>
        simp [build_remote_image, hctx, hacq, withLockBody, hsc, heb, hstop, hrun] at hc <;>
        rw [hc]

/-- A minimal plain builder (no start or stop command), used by the C1
witness. -/
def c1Defn : RemoteBuilderDefinition :=
  { name := "b", ssh_target := "user@host", workspace := "/srv/builds",
    ssh_port := 22, ssh_key := none, ssh_options := [],
    start_command := none, stop_command := none, lock_file := "/tmp/b.lock",
    provision_command := none, health_command := none, metadata := [] }

/-- Session parameters for the C1 and C3 evaluations. -/
def c1Params : SessionParams :=
  ⟨"20250101000000", "abcd1234", "/tmp/x.tar.gz", [⟨"./example.txt", "hello", 1⟩], 2⟩

/-- World in which everything succeeds and the lock is free. -/
def c1World : World :=
  ⟨fun _ => RunOutcome.ok, fun _ => false, fun _ => none, UnlinkOutcome.ok, true⟩

/-- Witness for C1 at a concrete definition, world and session. -/
theorem C1_build_pipeline_witness :
    (build_remote_image c1World c1Defn c1Params "FROM busybox" "/ctx"
        "ghcr.io/example/app:latest" false 5 false []).1.filter isTransport =
      [Event.shell (_remote_shell_command c1Defn (ensureWorkspacePayload c1Defn) none),
       Event.upload (_remote_scp_upload c1Defn c1Params.tarPath (remoteTar c1Defn c1Params)),
       Event.shell (_remote_shell_command c1Defn (extractPayload c1Defn c1Params) none),
       Event.shell (_remote_shell_command c1Defn
         (buildPayload c1Defn c1Params "ghcr.io/example/app:latest" false) none),
       Event.shell (_remote_shell_command c1Defn (cleanupPayload c1Defn c1Params) none)] ∧
    (∀ c, Event.lifecycle c ∈ (build_remote_image c1World c1Defn c1Params "FROM busybox"
        "/ctx" "ghcr.io/example/app:latest" false 5 false []).1 →
      c1Defn.start_command = some c) :=
  C1_build_pipeline c1World c1Defn c1Params "FROM busybox" "/ctx"
    "ghcr.io/example/app:latest" 5 false [] (by decide) (by decide) rfl rfl rfl
    (fun _ => rfl)

/-- A builder with a stop command, used by the C3 evaluation. -/
def stopDefn : RemoteBuilderDefinition :=
  { name := "b", ssh_target := "user@host", workspace := "/srv/builds",
    ssh_port := 22, ssh_key := none, ssh_options := [],
    start_command := none, stop_command := some ["stop-builder"],
    lock_file := "/tmp/b.lock", provision_command := none, health_command := none,
    metadata := [] }

/-- World where every command succeeds except the stop command (exit 1). -/
def c3WorldStopFails : World :=
  ⟨fun c => if c = ["stop-builder"] then RunOutcome.exit 1 else RunOutcome.ok,
   fun _ => false, fun _ => none, UnlinkOutcome.ok, true⟩

/-- World where the remote build command exits 2 and the stop command exits 1. -/
def c3WorldBothFail : World :=
  ⟨fun c =>
      if c = ["stop-builder"] then RunOutcome.exit 1
      else if c = _remote_shell_command stopDefn
          (buildPayload stopDefn c1Params "img" false) none then RunOutcome.exit 2
      else RunOutcome.ok,
   fun _ => false, fun _ => none, UnlinkOutcome.ok, true⟩

/-- C3 evaluation at the failing input: the stop command is indeed invoked
after the build attempt on both the success and the failure path, but when the
stop command exits non-zero, `_run_subprocess` turns that into a
`RemoteError`, which the `except (subprocess.CalledProcessError, OSError)`
handler does not catch — so, contrary to the claim (and to the handler's own
warning message), the stop failure escalates to the caller, and when the build
itself had already failed, the stop failure replaces the build error. -/
theorem C3_stop_failure_escalates :
    Event.lifecycle ["stop-builder"] ∈
      (build_remote_image c3WorldStopFails stopDefn c1Params "FROM x" "/ctx" "img"
        false 5 false []).1 ∧
    Event.lifecycle ["stop-builder"] ∈
      (build_remote_image c3WorldBothFail stopDefn c1Params "FROM x" "/ctx" "img"
        false 5 false []).1 ∧
    (build_remote_image c3WorldStopFails stopDefn c1Params "FROM x" "/ctx" "img"
        false 5 false []).2 =
      some (PyExc.remoteError "Command 'stop-builder' failed with exit code 1.") ∧
    (build_remote_image c3WorldBothFail stopDefn c1Params "FROM x" "/ctx" "img"
        false 5 false []).2 =
      some (PyExc.remoteError "Command 'stop-builder' failed with exit code 1.") ∧
    Event.msg ("[yellow]Warning: Failed to stop builder: Command 'stop-builder' failed " ++
        "with exit code 1.[/yellow]") ∉
      (build_remote_image c3WorldStopFails stopDefn c1Params "FROM x" "/ctx" "img"
        false 5 false []).1 := by
  refine ⟨?_, ?_, ?_, ?_, ?_⟩ <;> decide

end Absconda
